import Mathlib

/-!
Verification development for the m3u8 batch-synchronization bot.

Shallow embedding of the code in src/: the diff engine and ledger
(batch_manager.py, database.py, utils.py), the backup/restore path
(batch_manager.py, database.py), the video normalization pipeline and
splitting (video_processor.py), and the upload/delivery path
(uploader.py).  External effects (SQLite rows, subprocess outcomes,
Telegram send results, the filesystem) are made explicit parameters;
the control flow and arithmetic are translated from the Python source.
-/

set_option maxRecDepth 4096

namespace M3u8Bot

/-! ## String containment (embedding of Python substring / literal regex search)

The regex patterns used by utils.is_youtube_url contain only escaped
literal characters, so a case-insensitive regex search is exactly a
substring test on the lowercased URL; utils.is_mpd_url uses the Python
sub-string operator directly. -/

/-- Does the pattern match at the head of the character list? -/
def leadMatch : List Char → List Char → Bool
  | [], _ => true
  | _ :: _, [] => false
  | p :: ps, c :: cs => p == c && leadMatch ps cs

/-- Does the pattern occur anywhere inside the character list? -/
def subMatch (p : List Char) : List Char → Bool
  | [] => leadMatch p []
  | c :: cs => leadMatch p (c :: cs) || subMatch p cs

/-- String containment test: does s contain pat as a substring? -/
def containsSub (s pat : String) : Bool :=
  subMatch pat.data s.data

/-- Python str.lower restricted to the characters appearing in URLs,
written over the character list so that it evaluates by reduction. -/
def strLower (s : String) : String :=
  String.mk (s.data.map Char.toLower)

/-! ## utils.py: URL classification (lines 200-216) -/

/-- utils.is_youtube_url: case-insensitive search for four literal
YouTube URL patterns. -/
def is_youtube_url (url : String) : Bool :=
  let u := strLower url
  containsSub u "youtube.com/watch?v=" || containsSub u "youtu.be/" ||
    containsSub u "youtube.com/embed/" || containsSub u "youtube.com/shorts/"

/-- utils.is_mpd_url: substring test for adaptive-manifest URLs. -/
def is_mpd_url (url : String) : Bool :=
  containsSub (strLower url) ".mpd" || containsSub (strLower url) "/manifest."

/-- utils.is_failed_url: the non-retryable URL classes (YouTube or MPD). -/
def is_failed_url (url : String) : Bool :=
  is_youtube_url url || is_mpd_url url

/-! ## batch_manager.py: the diff engine (lines 62-100) -/

/-- A catalog item as parsed by utils.parse_auto_content: only the url
is used as cross-run identity by the diff engine. -/
structure Item where
  title : String
  url : String
  ty : String
  deriving DecidableEq, Repr

/-- BatchManager.get_smart_content_diff, with the two SQL query results
passed in explicitly: sent_urls are the content_url values whose ledger
status is success for the batch, failed_rows those whose status is
failed.  The function filters the failed URLs through the non-retryable
classes, then builds new_items (catalog items whose url is not among
the success URLs), retry_items (catalog items whose url is among the
retryable failed URLs), and returns retry_items followed by new_items. -/
def get_smart_content_diff (sent_urls : List String) (failed_rows : List String)
    (server_items : List Item) : List Item :=
  let failed_urls := failed_rows.filter (fun u => !(is_youtube_url u) && !(is_mpd_url u))
  let new_items := server_items.filter (fun it => !(sent_urls.contains it.url))
  let retry_items := server_items.filter (fun it => failed_urls.contains it.url)
  retry_items ++ new_items

/-! ## database.py: ledger rows and the sent_content table (lines 44-86, 198-209, 254-281)

The batches table row and the sent_content row carry exactly the
columns of the SQLite schema; sent_content has a UNIQUE(batch_id,
content_url) constraint, so INSERT OR REPLACE deletes the conflicting
row before inserting the new one. -/

/-- One row of the batches table. -/
structure BatchRow where
  batch_id : String
  batch_name : String
  user_id : Int
  destination_id : Option Int
  quality : Option String
  schedule_time : Option String
  custom_caption : Option String
  caption_style : Option String
  is_active : Int
  deriving DecidableEq, Repr

/-- One row of the sent_content table (the delivery ledger). -/
structure SentRow where
  batch_id : String
  destination_id : Option Int
  content_title : String
  content_url : String
  status : String
  deriving DecidableEq, Repr

/-- The mutable database state visible to the claims: the two tables. -/
structure DBState where
  batches : List BatchRow
  sent_content : List SentRow
  deriving DecidableEq, Repr

/-- INSERT OR REPLACE INTO sent_content under the
UNIQUE(batch_id, content_url) constraint: the conflicting row (if any)
is removed and the fresh row appended. -/
def upsert_sent (st : DBState) (batch_id : String) (dest : Option Int)
    (title url status : String) : DBState :=
  { st with sent_content :=
      st.sent_content.filter (fun r => !(r.batch_id == batch_id && r.content_url == url)) ++
        [{ batch_id := batch_id, destination_id := dest, content_title := title,
           content_url := url, status := status }] }

/-- An error raised by the SQLite layer (connect, execute or commit). -/
inductive DbErr where
  | ioError
  deriving DecidableEq, Repr

/-- The body of Database.mark_content_sent before its except clause:
the injected error e stands for any exception raised by the SQLite
layer while connecting, executing or committing.  When the statement
fails the transaction is never committed, so the table is unchanged. -/
def mark_content_sent_attempt (e : Option DbErr) (st : DBState) (batch_id : String)
    (dest : Option Int) (title url status : String) : Except DbErr DBState :=
  match e with
  | some d => Except.error d
  | none => Except.ok (upsert_sent st batch_id dest title url status)

/-- Database.mark_content_sent (lines 198-209): the whole body is
wrapped in try/except Exception, which logs and returns normally, so a
database error leaves the ledger exactly as it was. -/
def mark_content_sent (e : Option DbErr) (st : DBState) (batch_id : String)
    (dest : Option Int) (title url status : String) : DBState :=
  match mark_content_sent_attempt e st batch_id dest title url status with
  | Except.ok st2 => st2
  | Except.error _ => st

/-- Database.get_batch: SELECT * FROM batches WHERE batch_id = ?. -/
def get_batch (st : DBState) (batch_id : String) : Option BatchRow :=
  st.batches.find? (fun b => b.batch_id == batch_id)

/-! ## batch_manager.py: backup document and restore (lines 513-649);
database.py restore_batch_settings (lines 254-281) -/

/-- The batch object of a parsed backup document; dict.get on a JSON
object yields none for an absent key. -/
structure BackupBatch where
  batch_id : Option String
  batch_name : Option String
  user_id : Option Int
  destination_id : Option Int
  quality : Option String
  schedule_time : Option String
  custom_caption : Option String
  caption_style : Option String
  is_active : Option Int
  deriving DecidableEq, Repr

/-- One entry of the sent_content array of a backup document. -/
structure BackupItem where
  title : String
  url : String
  status : Option String
  deriving DecidableEq, Repr

/-- A parsed backup document holding both required keys. -/
structure BackupDoc where
  batch : BackupBatch
  sent_content : List BackupItem
  deriving DecidableEq, Repr

/-- Database.restore_batch_settings: UPDATE batches SET the six
configuration columns from settings.get(...) WHERE batch_id matches;
is_active comes from settings.get with default 0 (the source comment
next to that line reads: Keep inactive after restore). -/
def restore_batch_settings (st : DBState) (batch_id : String)
    (settings : BackupBatch) : DBState :=
  { st with batches := st.batches.map (fun b =>
      if b.batch_id == batch_id then
        { b with destination_id := settings.destination_id,
                 quality := settings.quality,
                 schedule_time := settings.schedule_time,
                 custom_caption := settings.custom_caption,
                 caption_style := settings.caption_style,
                 is_active := settings.is_active.getD 0 }
      else b) }

/-- BatchManager.restore_backup on a parsed document: reject when the
document's batch_id differs from the target (before any mutation),
otherwise restore the settings, re-read the batch, delete the batch's
sent_content rows and re-insert every backup entry through
mark_content_sent with the entry's status (default success).  The
returned flag is the success field of the result dict. -/
def restore_backup (doc : BackupDoc) (batch_id : String) (st : DBState) :
    DBState × Bool :=
  if doc.batch.batch_id = some batch_id then
    let st1 := restore_batch_settings st batch_id doc.batch
    match get_batch st1 batch_id with
    | none => (st1, false)
    | some current =>
        let st2 := { st1 with sent_content :=
          st1.sent_content.filter (fun r => !(r.batch_id == batch_id)) }
        let st3 := doc.sent_content.foldl
          (fun acc item =>
            mark_content_sent none acc batch_id current.destination_id
              item.title item.url (item.status.getD "success")) st2
        (st3, true)
  else (st, false)

/-! ## video_processor.py: the normalization pipeline -/

/-- The two kinds of deliverable path finalize_video can return. -/
inductive FinalizeResult where
  | finalized
  | originalFile
  deriving DecidableEq, Repr

/-- video_processor.finalize_video (lines 106-209).  Each attempt flag
is true when the corresponding ffmpeg run returned 0 and produced an
output file larger than 1024 bytes.  Without ffmpeg the function
returns the input path whenever the input exists; with ffmpeg, after
all three attempts fail it returns the input path only when the input
exists and is larger than 1024 bytes, and none otherwise.  An
exception inside the try block lands in the same final size check. -/
def finalize_video (ffmpeg_available : Bool) (input_exists : Bool)
    (input_size : Nat) (attempt1 attempt2 attempt3 : Bool) : Option FinalizeResult :=
  if ffmpeg_available = false then
    if input_exists then some FinalizeResult.originalFile else none
  else if attempt1 then some FinalizeResult.finalized
  else if attempt2 then some FinalizeResult.finalized
  else if attempt3 then some FinalizeResult.finalized
  else if input_exists then
    (if 1024 < input_size then some FinalizeResult.originalFile else none)
  else none

/-- The seek offset (in seconds) chosen by
video_processor.generate_thumbnail (lines 429-433): 12 by default, 1
only when 0 < duration < 12. -/
def generate_thumbnail_seek_time (duration : Int) : Nat :=
  if 0 < duration ∧ duration < 12 then 1 else 12

/-- video_processor.get_video_dimensions (lines 373-415).  probe is
the parsed ffprobe output: some (w, h) when the command returned 0 and
its output split on a comma into two integers, none on any failure.
Positive dimensions have any odd value reduced by its remainder mod 2;
everything else falls back to (1280, 720). -/
def get_video_dimensions (ffprobe_available : Bool) (probe : Option (Int × Int)) :
    Int × Int :=
  if ffprobe_available = false then (1280, 720)
  else
    match probe with
    | some (w, h) =>
        if 0 < w ∧ 0 < h then
          ((if w % 2 = 0 then w else w - w % 2),
           (if h % 2 = 0 then h else h - h % 2))
        else (1280, 720)
    | none => (1280, 720)

/-- The outcome of video_processor.split_video_file: either the
original file alone, or n split parts. -/
inductive SplitOutcome where
  | original
  | parts (n : Nat)
  deriving DecidableEq, Repr

/-- The part loop of split_video_file: each index runs one ffmpeg
segment command; the first failing command makes the whole function
return the original file (modeled as none), otherwise every part is
collected. -/
def split_parts_loop (segOk : Nat → Bool) (idxs : List Nat) : Option Nat :=
  idxs.foldl
    (fun acc i =>
      match acc with
      | none => none
      | some n => if segOk i then some (n + 1) else none)
    (some 0)

/-- video_processor.split_video_file (lines 509-574).  file_size is in
bytes, max_size_mb the ceiling in MiB; the size gate compares
file_size / 2^20 against max_size_mb, exact over the integers; the
part count is int(file_size / max_size_bytes) + 1, a floor division
plus one.  A zero ceiling raises ZeroDivisionError, which the outer
except converts to returning the original file. -/
def split_video_file (ffmpeg_available : Bool) (file_size max_size_mb : Nat)
    (duration : Int) (segOk : Nat → Bool) : SplitOutcome :=
  if ffmpeg_available = false then SplitOutcome.original
  else if file_size ≤ max_size_mb * 1024 * 1024 then SplitOutcome.original
  else if duration ≤ 0 then SplitOutcome.original
  else if max_size_mb * 1024 * 1024 = 0 then SplitOutcome.original
  else
    match split_parts_loop segOk
        (List.range (file_size / (max_size_mb * 1024 * 1024) + 1)) with
    | none => SplitOutcome.original
    | some n => if n = 0 then SplitOutcome.original else SplitOutcome.parts n

/-- Ceiling division on naturals, the quantity the specification calls
ceil(size / ceiling). -/
def ceilDiv (a b : Nat) : Nat :=
  (a + b - 1) / b

/-! ## uploader.py: upload_video split branch (lines 110-182) and the
ledger write in batch_manager.process_batch (lines 339-345) -/

/-- The Union[bool, int] return type of the upload functions. -/
inductive UpRet where
  | asBool (b : Bool)
  | asInt (i : Int)
  deriving DecidableEq, Repr

/-- Python truthiness of an upload result: False and 0 are falsy. -/
def truthy : UpRet → Bool
  | UpRet.asBool b => b
  | UpRet.asInt i => !(i == 0)

/-- One part of a split upload: whether the part file exists on disk,
and the message id when client.send_video succeeded (none when it
raised; the per-part except clause logs and continues). -/
structure PartAttempt where
  pexists : Bool
  send : Option Int
  deriving DecidableEq, Repr

/-- first_message_id after the part loop of upload_video: the loop
index i starts at 1 and only the iteration with i = 1 can store an id,
so only the head part contributes; a missing file or a failed send
leaves it at 0. -/
def upload_parts_first_id (parts : List PartAttempt) : Int :=
  match parts with
  | [] => 0
  | p :: _ =>
      if p.pexists then
        (match p.send with
         | some id => id
         | none => 0)
      else 0

/-- The split branch of uploader.upload_video: an empty part list
returns False, otherwise the function returns first_message_id when it
is positive and True otherwise. -/
def upload_video_split (parts : List PartAttempt) : UpRet :=
  if parts = [] then UpRet.asBool false
  else
    let first := upload_parts_first_id parts
    if 0 < first then UpRet.asInt first else UpRet.asBool true

/-- The ledger status written by BatchManager.process_batch after an
upload: success when the returned value is truthy, failed otherwise. -/
def process_upload_mark (ret : UpRet) : String :=
  if truthy ret then "success" else "failed"

/-! ## Sample data used by concrete evaluations and witnesses -/

/-- A sample batches row for batch b1. -/
def sampleBatchRow : BatchRow :=
  { batch_id := "b1", batch_name := "Course", user_id := 7,
    destination_id := some 100, quality := some "720p", schedule_time := none,
    custom_caption := none, caption_style := some "normal", is_active := 0 }

/-- A sample ledger row: one delivered item of batch b1. -/
def sampleSentRow : SentRow :=
  { batch_id := "b1", destination_id := some 100, content_title := "Old",
    content_url := "http://old/x.mp4", status := "success" }

/-- A sample database state with one batch and one delivered item. -/
def sampleState : DBState :=
  { batches := [sampleBatchRow], sent_content := [sampleSentRow] }

/-- The batch object of a backup of b1 whose stored active flag is 1,
as get_backup_data produces for an active batch. -/
def activeBackupBatch : BackupBatch :=
  { batch_id := some "b1", batch_name := some "Course", user_id := some 7,
    destination_id := some 200, quality := some "1080p",
    schedule_time := some "09:00", custom_caption := some "cap",
    caption_style := some "fancy", is_active := some 1 }

/-- A backup document for batch b1 whose stored active flag is 1. -/
def activeBackupDoc : BackupDoc :=
  { batch := activeBackupBatch,
    sent_content := [{ title := "T1", url := "http://a/1.mp4", status := some "failed" }] }

/-- The batch object of a backup of batch b2. -/
def mismatchBackupBatch : BackupBatch :=
  { batch_id := some "b2", batch_name := none, user_id := none,
    destination_id := none, quality := none, schedule_time := none,
    custom_caption := none, caption_style := none, is_active := none }

/-- A backup document whose batch_id (b2) differs from the target b1. -/
def mismatchBackupDoc : BackupDoc :=
  { batch := mismatchBackupBatch, sent_content := [] }

/-! ## Helper lemmas -/

/-- The part loop over any starting count: when every ffmpeg segment
command succeeds, the fold counts every index. -/
theorem split_parts_loop_go (segOk : Nat → Bool) (l : List Nat)
    (h : ∀ i ∈ l, segOk i = true) (n : Nat) :
    l.foldl
      (fun acc i =>
        match acc with
        | none => none
        | some m => if segOk i then some (m + 1) else none)
      (some n) = some (n + l.length) := by
  induction l generalizing n with
  | nil => simp
  | cons a as ih =>
      have ha : segOk a = true := h a (List.mem_cons_self a as)
      simp only [List.foldl_cons, ha, if_true, List.length_cons]
      rw [ih (fun i hi => h i (List.mem_cons_of_mem a hi)) (n + 1)]
      congr 1
      omega

/-- When every segment command succeeds the loop returns the number of
planned parts. -/
theorem split_parts_loop_all (segOk : Nat → Bool) (l : List Nat)
    (h : ∀ i ∈ l, segOk i = true) :
    split_parts_loop segOk l = some l.length := by
  unfold split_parts_loop
  rw [split_parts_loop_go segOk l h 0]
  simp

/-- Ceiling division agrees with floor division on exact multiples. -/
theorem ceilDiv_of_dvd {a b : Nat} (hb : 0 < b) (h : b ∣ a) :
    ceilDiv a b = a / b := by
  obtain ⟨k, rfl⟩ := h
  unfold ceilDiv
  have h1 : b * k + b - 1 = (b - 1) + b * k := by omega
  rw [h1, Nat.add_mul_div_left _ _ hb, Nat.div_eq_of_lt (by omega),
    Nat.mul_div_cancel_left _ hb]
  omega

/-- Ceiling division is floor division plus one off exact multiples. -/
theorem ceilDiv_of_not_dvd {a b : Nat} (hb : 0 < b) (h : ¬ b ∣ a) :
    ceilDiv a b = a / b + 1 := by
  have hmod : a % b ≠ 0 := fun hc => h (Nat.dvd_of_mod_eq_zero hc)
  have hqr : b * (a / b) + a % b = a := Nat.div_add_mod a b
  have hlt : a % b < b := Nat.mod_lt a hb
  have h1 : a + b - 1 = (a % b - 1) + b * (a / b + 1) := by
    rw [Nat.mul_add, Nat.mul_one]
    omega
  unfold ceilDiv
  rw [h1, Nat.add_mul_div_left _ _ hb, Nat.div_eq_of_lt (by omega), Nat.zero_add]

/-! ## Claim theorems -/

/-- Claim C1: the specification asserts the work list holds each
catalog item at most once, with the new group computed as
C minus (D union F).  The code computes the new group as C minus D
only, so a catalog item whose URL carries a retryable failed ledger
entry lands in the retry group AND in the new group: with an empty
success set, one failed retryable URL and a one-item catalog, the diff
returns that item twice.  This evaluates the code at that failing
input. -/
theorem c1_diff_duplicates_failed_retryable :
    is_failed_url "http://x/v.mp4" = false ∧
    get_smart_content_diff [] ["http://x/v.mp4"]
      [{ title := "A", url := "http://x/v.mp4", ty := "video" }] =
      [{ title := "A", url := "http://x/v.mp4", ty := "video" },
       { title := "A", url := "http://x/v.mp4", ty := "video" }] := by
  decide

/-- Claim C2: the specification asserts a non-retryable (YouTube/MPD)
URL with a failed ledger entry never reappears in any later work list.
The code only excludes it from the retry group; the new group excludes
only success URLs, so the failed YouTube URL reappears there.  This
evaluates the code at that failing input: the work list still holds
the item. -/
theorem c2_failed_youtube_reappears_as_new :
    is_failed_url "https://youtu.be/abc" = true ∧
    get_smart_content_diff [] ["https://youtu.be/abc"]
      [{ title := "A", url := "https://youtu.be/abc", ty := "video" }] =
      [{ title := "A", url := "https://youtu.be/abc", ty := "video" }] := by
  decide

/-- Claim C3: the specification asserts a restored batch is forced
inactive regardless of the backup's stored active flag.  The code
passes settings.get with default 0, so the default never applies when
the backup (as produced by get_backup_data) stores is_active = 1: the
restore succeeds and the batch stays active.  This evaluates the code
at that failing input. -/
theorem c3_restore_keeps_backup_active_flag :
    (restore_backup activeBackupDoc "b1" sampleState).2 = true ∧
    Option.map (fun b => b.is_active)
      (get_batch (restore_backup activeBackupDoc "b1" sampleState).1 "b1") =
      some 1 := by
  decide

/-- Claim C4: a backup whose batch_id differs from the target batch is
rejected with success = false before any write: the returned state is
exactly the input state, so neither the ledger nor the configuration
changes on the mismatch path. -/
theorem c4_restore_mismatch_rejected_no_mutation (doc : BackupDoc)
    (batch_id : String) (st : DBState) (h : doc.batch.batch_id ≠ some batch_id) :
    restore_backup doc batch_id st = (st, false) := by
  unfold restore_backup
  rw [if_neg h]

/-- Witness for C4 at a concrete mismatching document and state. -/
theorem c4_restore_mismatch_witness :
    restore_backup mismatchBackupDoc "b1" sampleState = (sampleState, false) :=
  c4_restore_mismatch_rejected_no_mutation mismatchBackupDoc "b1" sampleState
    (by decide)

/-- Claim C5 counterexample: a 2 MiB file with a 1 MiB ceiling is an
exact multiple of the ceiling, so ceil(size/ceiling) = 2, but the code
computes int(size/ceiling) + 1 = 3 parts. -/
theorem c5_split_count_counterexample :
    split_video_file true 2097152 1 60 (fun _ => true) = SplitOutcome.parts 3 ∧
    ceilDiv 2097152 (1 * 1024 * 1024) = 2 ∧
    split_video_file true 2097152 1 60 (fun _ => true) ≠
      SplitOutcome.parts (ceilDiv 2097152 (1 * 1024 * 1024)) := by
  decide

/-- Claim C5 as amended: for an oversized artifact with readable
duration and all segment commands succeeding, splitting produces
exactly floor(size/ceiling) + 1 segments; that equals
ceil(size/ceiling) whenever the ceiling does not divide the size
exactly, and ceil(size/ceiling) + 1 when it does. -/
theorem c5_split_count_amended (file_size max_size_mb : Nat) (duration : Int)
    (segOk : Nat → Bool) (hmb : 0 < max_size_mb)
    (hsz : max_size_mb * 1024 * 1024 < file_size) (hd : 0 < duration)
    (hok : ∀ i, segOk i = true) :
    split_video_file true file_size max_size_mb duration segOk =
      SplitOutcome.parts (file_size / (max_size_mb * 1024 * 1024) + 1) ∧
    (¬ max_size_mb * 1024 * 1024 ∣ file_size →
      file_size / (max_size_mb * 1024 * 1024) + 1 =
        ceilDiv file_size (max_size_mb * 1024 * 1024)) ∧
    (max_size_mb * 1024 * 1024 ∣ file_size →
      file_size / (max_size_mb * 1024 * 1024) + 1 =
        ceilDiv file_size (max_size_mb * 1024 * 1024) + 1) := by
  have hbpos : 0 < max_size_mb * 1024 * 1024 := by positivity
  refine ⟨?_, ?_, ?_⟩
  · unfold split_video_file
    rw [if_neg (by decide), if_neg (not_le.mpr hsz), if_neg (not_le.mpr hd),
      if_neg (Nat.pos_iff_ne_zero.mp hbpos),
      split_parts_loop_all segOk _ (fun i _ => hok i), List.length_range]
    simp
  · intro h
    exact (ceilDiv_of_not_dvd hbpos h).symm
  · intro h
    rw [ceilDiv_of_dvd hbpos h]

/-- Witness for C5 at a concrete oversized non-multiple size: 2 MiB + 1
byte over a 1 MiB ceiling gives 3 parts, and ceiling division agrees. -/
theorem c5_split_count_amended_witness :
    split_video_file true 2097153 1 60 (fun _ => true) =
      SplitOutcome.parts (2097153 / (1 * 1024 * 1024) + 1) ∧
    (¬ 1 * 1024 * 1024 ∣ 2097153 →
      2097153 / (1 * 1024 * 1024) + 1 = ceilDiv 2097153 (1 * 1024 * 1024)) ∧
    (1 * 1024 * 1024 ∣ 2097153 →
      2097153 / (1 * 1024 * 1024) + 1 = ceilDiv 2097153 (1 * 1024 * 1024) + 1) :=
  c5_split_count_amended 2097153 1 60 (fun _ => true) (by decide) (by decide)
    (by decide) (fun _ => rfl)

/-- Claim C6: the specification asserts the run records failed when
every segment upload fails.  In the split branch the code returns
first_message_id when positive and True otherwise, so when every
send_video call raises it still returns True, which is truthy, and
process_batch records success.  This evaluates the code at that
failing input: two parts, both sends fail. -/
theorem c6_all_segments_fail_marked_success :
    upload_video_split
      [{ pexists := true, send := none }, { pexists := true, send := none }] =
      UpRet.asBool true ∧
    process_upload_mark
      (upload_video_split
        [{ pexists := true, send := none }, { pexists := true, send := none }]) =
      "success" := by
  decide

/-- Claim C7 counterexample: an existing input file of 512 bytes whose
three remux attempts all fail makes finalize_video return none, even
though the file exists — refuting that none is returned only when the
file never existed. -/
theorem c7_finalize_small_file_counterexample :
    finalize_video true true 512 false false false = none := by
  decide

/-- Claim C7 as amended: for an existing input file, finalize_video
returns a deliverable path (a remuxed output or the original file)
unless ffmpeg is available, all three remux attempts fail AND the
existing file is at most 1024 bytes; only in that case (for an
existing file) is none returned.  The function is total, so no
exception escapes. -/
theorem c7_finalize_amended (ffmpeg a1 a2 a3 : Bool) (input_size : Nat) :
    finalize_video ffmpeg true input_size a1 a2 a3 = none ↔
      ffmpeg = true ∧ a1 = false ∧ a2 = false ∧ a3 = false ∧
        input_size ≤ 1024 := by
  cases ffmpeg <;> cases a1 <;> cases a2 <;> cases a3 <;>
    simp only [finalize_video] <;> simp

/-- Witness for C7 at a concrete existing 2000-byte file with all
attempts failing: the file is large enough, so some path is returned. -/
theorem c7_finalize_amended_witness :
    finalize_video true true 2000 false false false = none ↔
      true = true ∧ false = false ∧ false = false ∧ false = false ∧
        2000 ≤ 1024 :=
  c7_finalize_amended true false false false 2000

/-- Claim C8 counterexample: a reported duration of 0 is below 12
seconds, yet the chosen seek offset is 12, not 1 — the 1-second branch
requires duration to be strictly positive. -/
theorem c8_thumbnail_seek_zero_duration_counterexample :
    (0 : Int) < 12 ∧ generate_thumbnail_seek_time 0 = 12 ∧
    generate_thumbnail_seek_time 0 ≠ 1 := by
  decide

/-- Claim C8 as amended: the seek offset is 1 second exactly when the
reported duration lies strictly between 0 and 12 seconds, and 12
seconds otherwise (duration at least 12, or a non-positive/unknown
duration). -/
theorem c8_thumbnail_seek_amended (d : Int) :
    (0 < d ∧ d < 12 → generate_thumbnail_seek_time d = 1) ∧
    (12 ≤ d ∨ d ≤ 0 → generate_thumbnail_seek_time d = 12) := by
  unfold generate_thumbnail_seek_time
  constructor
  · intro h
    rw [if_pos h]
  · intro h
    rw [if_neg (by omega)]

/-- Witness for C8 at durations 5 and 20. -/
theorem c8_thumbnail_seek_amended_witness :
    generate_thumbnail_seek_time 5 = 1 ∧ generate_thumbnail_seek_time 20 = 12 :=
  ⟨(c8_thumbnail_seek_amended 5).1 (by decide),
   (c8_thumbnail_seek_amended 20).2 (by decide)⟩

/-- Claim C9: Database.mark_content_sent catches every exception from
the SQLite layer, returns normally (the embedding is a total function
into DBState), and when the attempt raised the transaction was never
committed, so the ledger state is returned unchanged. -/
theorem c9_mark_content_sent_error_no_mutation (e : Option DbErr) (st : DBState)
    (batch_id : String) (dest : Option Int) (title url status : String)
    (d : DbErr)
    (h : mark_content_sent_attempt e st batch_id dest title url status =
      Except.error d) :
    mark_content_sent e st batch_id dest title url status = st := by
  unfold mark_content_sent
  rw [h]

/-- Witness for C9: an injected database error on a concrete state
leaves the state untouched. -/
theorem c9_mark_content_sent_error_witness :
    mark_content_sent (some DbErr.ioError) sampleState "b1" (some 100) "T"
      "http://a/1.mp4" "failed" = sampleState :=
  c9_mark_content_sent_error_no_mutation (some DbErr.ioError) sampleState "b1"
    (some 100) "T" "http://a/1.mp4" "failed" DbErr.ioError rfl

/-- Claim C10 counterexample: a successful probe reporting width 1
(odd) and height 2 is reduced to width 0, which is not positive —
refuting that the result is always a pair of positive integers. -/
theorem c10_dimensions_width_one_counterexample :
    get_video_dimensions true (some (1, 2)) = (0, 2) ∧
    ¬ 0 < (get_video_dimensions true (some (1, 2))).1 := by
  decide

/-- Claim C10 as amended: both returned components are always even and
nonnegative; on a successful probe with positive width and height each
component is the probed value or the probed value minus one, and is
positive exactly when the probed value is not 1; with ffprobe
unavailable, a failed probe, or non-positive probed values the result
is the fixed default (1280, 720). -/
theorem c10_dimensions_amended (ffprobe : Bool) (probe : Option (Int × Int)) :
    ((get_video_dimensions ffprobe probe).1 % 2 = 0 ∧
     (get_video_dimensions ffprobe probe).2 % 2 = 0 ∧
     0 ≤ (get_video_dimensions ffprobe probe).1 ∧
     0 ≤ (get_video_dimensions ffprobe probe).2) ∧
    (∀ w h : Int, ffprobe = true → probe = some (w, h) → 0 < w → 0 < h →
      ((get_video_dimensions ffprobe probe).1 = w ∨
        (get_video_dimensions ffprobe probe).1 = w - 1) ∧
      ((get_video_dimensions ffprobe probe).2 = h ∨
        (get_video_dimensions ffprobe probe).2 = h - 1) ∧
      (0 < (get_video_dimensions ffprobe probe).1 ↔ w ≠ 1) ∧
      (0 < (get_video_dimensions ffprobe probe).2 ↔ h ≠ 1)) ∧
    ((ffprobe = false ∨ probe = none ∨
        (∀ w h : Int, probe = some (w, h) → w ≤ 0 ∨ h ≤ 0)) →
      get_video_dimensions ffprobe probe = (1280, 720)) := by
  cases ffprobe with
  | false =>
      simp [get_video_dimensions]
  | true =>
      cases probe with
      | none =>
          simp [get_video_dimensions]
      | some p =>
          obtain ⟨w, h⟩ := p
          by_cases hwh : 0 < w ∧ 0 < h
          · simp only [get_video_dimensions, if_neg (by decide : ¬ true = false),
              if_pos hwh]
            refine ⟨?_, ?_, ?_⟩
            · constructor
              · split <;> omega
              · constructor
                · split <;> omega
                · constructor <;> (split <;> omega)
            · intro w2 h2 _ hp hw2 hh2
              have hw : w2 = w ∧ h2 = h := by
                injection hp with hp2
                injection hp2 with hw hh
                exact ⟨hw.symm, hh.symm⟩
              obtain ⟨rfl, rfl⟩ := hw
              refine ⟨?_, ?_, ?_, ?_⟩
              · split <;> omega
              · split <;> omega
              · constructor
                · intro hpos
                  intro heq
                  subst heq
                  revert hpos
                  split <;> omega
                · intro hne
                  split <;> omega
              · constructor
                · intro hpos
                  intro heq
                  subst heq
                  revert hpos
                  split <;> omega
                · intro hne
                  split <;> omega
            · intro hcase
              rcases hcase with hc | hc | hc
              · exact absurd hc (by decide)
              · exact absurd hc (by simp)
              · have := hc w h rfl
                omega
          · simp only [get_video_dimensions, if_neg (by decide : ¬ true = false),
              if_neg hwh]
            refine ⟨by norm_num, ?_, ?_⟩
            · intro w2 h2 _ hp hw2 hh2
              have hw : w2 = w ∧ h2 = h := by
                injection hp with hp2
                injection hp2 with hw hh
                exact ⟨hw.symm, hh.symm⟩
              obtain ⟨rfl, rfl⟩ := hw
              exact absurd ⟨hw2, hh2⟩ hwh
            · intro _
              trivial

/-- Witness for C10 at a concrete probe of (4, 3): the result is (4, 2)
with both components positive. -/
theorem c10_dimensions_amended_witness :
    ((get_video_dimensions true (some (4, 3))).1 = 4 ∨
      (get_video_dimensions true (some (4, 3))).1 = 4 - 1) ∧
    (0 < (get_video_dimensions true (some (4, 3))).2 ↔ (3 : Int) ≠ 1) :=
  ⟨((c10_dimensions_amended true (some (4, 3))).2.1 4 3 rfl rfl (by decide)
      (by decide)).1,
   ((c10_dimensions_amended true (some (4, 3))).2.1 4 3 rfl rfl (by decide)
      (by decide)).2.2.2⟩

end M3u8Bot
